import Mathlib

/-!
Shallow embedding of the SivoAI/AI-tutor repository:

* `analyze_project.py` — the project-analyzer CLI (`ProjectAnalyzer`):
  directory scan, component-status analysis, error/finding scan,
  dependency/framework detection, and the generated-prompt fragments.
* `backend/app/main.py` + `backend/app/schemas.py` + `backend/app/models.py` —
  the HTTP API endpoints over an in-memory model of the relational store.

Python strings are modelled as Lean `String`s; the handful of `str`
operations the source uses (`startswith`, `endswith`, substring `in`) are
implemented over `String.toList` so that all definitions evaluate by kernel
reduction.  Machine floats appear only as the analyzer's completion
percentage, which is a ratio of small naturals times 100; it is modelled
exactly as a rational (`ℚ`).
-/

namespace AITutor

/-! ### String helpers (models of the Python `str` operations used) -/

/-- Model of Python `s.startswith(pre)`. -/
def strStartsWith (s pre : String) : Bool :=
  pre.toList.isPrefixOf s.toList

/-- Model of Python `s.endswith(suf)`. -/
def strEndsWith (s suf : String) : Bool :=
  suf.toList.isSuffixOf s.toList

/-- Boolean infix-of test on character lists (`needle` occurs inside `hay`). -/
def listIsInfixOf (needle hay : List Char) : Bool :=
  hay.tails.any (fun t => needle.isPrefixOf t)

/-- Model of Python `needle in hay` on strings (substring containment). -/
def strContainsSubstr (hay needle : String) : Bool :=
  listIsInfixOf needle.toList hay.toList

/-! ### analyze_project.py — directory scan (`ProjectAnalyzer.scan_directory`) -/

/-- `FILE_TYPES` table of `ProjectAnalyzer` (extension → language label). -/
def FILE_TYPES : List (String × String) :=
  [(".py", "Python"), (".js", "JavaScript"), (".jsx", "React"),
   (".ts", "TypeScript"), (".tsx", "React/TypeScript"), (".json", "JSON"),
   (".html", "HTML"), (".css", "CSS"), (".md", "Markdown"),
   (".yml", "YAML"), (".yaml", "YAML"), (".sql", "SQL")]

/-- Model of the extension part of `os.path.splitext(file)` on a bare file
name (no separators): the suffix from the last `.`, provided at least one
character before that dot is not itself a dot; otherwise the empty string. -/
def splitextExt (name : String) : String :=
  let cs := name.toList
  match (cs.reverse).findIdx? (fun c => c == '.') with
  | none => ""
  | some k =>
    let i := cs.length - 1 - k
    if (cs.take i).any (fun c => !(c == '.')) then String.mk (cs.drop i) else ""

/-- `self.FILE_TYPES.get(ext, "Unknown")` applied to the extension of a
file name (`scan_directory`, lines 74 and 79). -/
def fileTypeOf (name : String) : String :=
  (FILE_TYPES.lookup (splitextExt name)).getD "Unknown"

/-- One file yielded by `os.walk`: the components of its containing
directory relative to the project root, its base name, and its size in
bytes.  `os.walk` never prunes its `dirnames` list here (the loop variable
for directories is discarded), so the walk enumerates files below
dot-named directories as well; a `WalkEntry` list models the full walk. -/
structure WalkEntry where
  dirs : List String
  name : String
  size : Nat
deriving DecidableEq

/-- The `root` variable of the `os.walk` loop: the project root joined
with the directory components (path separator `/`). -/
def walkRoot (projectRoot : String) (dirs : List String) : String :=
  dirs.foldl (fun a d => a ++ "/" ++ d) projectRoot

/-- `rel_path = os.path.relpath(file_path, self.project_root)`. -/
def relPath (e : WalkEntry) : String :=
  String.intercalate "/" (e.dirs ++ [e.name])

/-- One element of `self.files` (path, classified type, size). -/
structure FileRec where
  path : String
  type : String
  size : Nat
deriving DecidableEq

/-- `ProjectAnalyzer.scan_directory` (lines 65–84): for every walked file,
skip it when its base name starts with `.` or when the string
`__pycache__` occurs in the walk `root` path; otherwise record its
relative path, classified type and size, in walk order. -/
def scan_directory (projectRoot : String) (entries : List WalkEntry) : List FileRec :=
  entries.foldl
    (fun acc e =>
      if strStartsWith e.name "." || strContainsSubstr (walkRoot projectRoot e.dirs) "__pycache__" then
        acc
      else
        acc ++ [{ path := relPath e, type := fileTypeOf e.name, size := e.size }])
    []

/-! ### analyze_project.py — component status (`analyze_component_status`) -/

/-- `EXPECTED_COMPONENTS` table of `ProjectAnalyzer`, in definition order. -/
def EXPECTED_COMPONENTS : List (String × List String) :=
  [("curriculum", ["curriculum_structure.json", "learning_paths.json"]),
   ("backend", ["main.py", "requirements.txt", "models.py", "database.py", "routers"]),
   ("frontend", ["package.json", "src", "public"]),
   ("ai_models", ["model_config.json", "fine_tuning", "prompts"]),
   ("voice", ["stt_config.json", "tts_config.json"]),
   ("agents", ["agent_config.json", "workflows"]),
   ("deployment", ["Dockerfile", "docker-compose.yml", "k8s"])]

/-- The per-path test of line 104:
`path == expected or path.startswith(f"{expected}/")`. -/
def pathMatchesExpected (expected path : String) : Bool :=
  path == expected || strStartsWith path (expected ++ "/")

/-- One value of `self.component_status` (lines 116–121). -/
structure ComponentStatus where
  status : String
  completion_percentage : ℚ
  found_files : List String
  missing_files : List String
deriving DecidableEq

/-- The inner loop of `analyze_component_status` (lines 95–121) for a
single component, over the discovered relative paths `files`:
`found_files` collects, per expected entry, every path matching it;
`missing_files` keeps the expected entries no path matches; the
completion percentage is `found / expected * 100`, and the status label
is `Complete` at 100, `In Progress` above 0, else `Not Started`. -/
def componentStatus (files : List String) (expected_files : List String) : ComponentStatus :=
  let found_files := expected_files.flatMap (fun e => files.filter (pathMatchesExpected e))
  let missing_files := expected_files.filter (fun e => !(files.any (pathMatchesExpected e)))
  let total_expected := expected_files.length
  let total_found := total_expected - missing_files.length
  let completion_pct : ℚ :=
    if total_expected > 0 then (total_found : ℚ) / (total_expected : ℚ) * 100 else 0
  { status :=
      if completion_pct = 100 then "Complete"
      else if completion_pct > 0 then "In Progress"
      else "Not Started",
    completion_percentage := completion_pct,
    found_files := found_files,
    missing_files := missing_files }

/-- `ProjectAnalyzer.analyze_component_status` (lines 88–121): one
`ComponentStatus` per expected component, keyed by component name. -/
def analyze_component_status (files : List String) : List (String × ComponentStatus) :=
  EXPECTED_COMPONENTS.map (fun c => (c.1, componentStatus files c.2))

/-- `completed` count of `_generate_claude_prompt` line 328. -/
def completedCount (cs : List (String × ComponentStatus)) : Nat :=
  cs.countP (fun e => e.2.status == "Complete")

/-- `in_progress` count of `_generate_claude_prompt` line 329. -/
def inProgressCount (cs : List (String × ComponentStatus)) : Nat :=
  cs.countP (fun e => e.2.status == "In Progress")

/-- `not_started` count of `_generate_claude_prompt` line 330. -/
def notStartedCount (cs : List (String × ComponentStatus)) : Nat :=
  cs.countP (fun e => e.2.status == "Not Started")

/-! ### analyze_project.py — error/finding scan (`find_errors`)

`find_errors` re-reads each recorded file from disk; a `ScannedFile`
carries the recorded path/type/size together with the text the read
returns, modelling a successful read (no claim concerns the read-failure
branch).  The regular expressions of lines 142–183 are implemented as
explicit scanners over the character list, with `re.findall`'s
left-to-right non-overlapping match semantics. -/

/-- A discovered file together with its text content. -/
structure ScannedFile where
  path : String
  type : String
  size : Nat
  content : String
deriving DecidableEq

/-- One entry of `self.errors` (file, finding category, message). -/
structure Finding where
  file : String
  type : String
  message : String
deriving DecidableEq

/-- ASCII whitespace matched by the patterns' `\s`. -/
def isPyWs (c : Char) : Bool :=
  c == ' ' || c == '\t' || c == '\n' || c == '\r' || c == '\x0b' || c == '\x0c'

/-- Match a literal at the head of the input, returning the rest. -/
def matchLit (lit : List Char) (cs : List Char) : Option (List Char) :=
  if lit.isPrefixOf cs then some (cs.drop lit.length) else none

/-- One match attempt of `#\s*TODO` at the head of the input (line 145). -/
def pyTodoStep : List Char → Option (List Char)
  | '#' :: rest => matchLit "TODO".toList (rest.dropWhile isPyWs)
  | _ => none

/-- One match attempt of `//\s*TODO` at the head of the input (line 174). -/
def jsTodoStep : List Char → Option (List Char)
  | '/' :: '/' :: rest => matchLit "TODO".toList (rest.dropWhile isPyWs)
  | _ => none

/-- One match attempt of `console\.log` at the head of the input (line 165). -/
def consoleLogStep (cs : List Char) : Option (List Char) :=
  matchLit "console.log".toList cs

/-- One match attempt of `except\s*:` at the head of the input (line 155). -/
def bareExceptStep (cs : List Char) : Option (List Char) :=
  match matchLit "except".toList cs with
  | some rest =>
    match rest.dropWhile isPyWs with
    | ':' :: rest2 => some rest2
    | _ => none
  | none => none

/-- Left-to-right non-overlapping match count (`len(re.findall(...))`):
try the pattern at each position; on a match, resume after it.  Every
step function consumes at least one character, so fuel `length + 1`
suffices. -/
def countMatchesAux (step : List Char → Option (List Char)) : Nat → List Char → Nat
  | 0, _ => 0
  | _ + 1, [] => 0
  | fuel + 1, c :: cs =>
    match step (c :: cs) with
    | some rest => 1 + countMatchesAux step fuel rest
    | none => countMatchesAux step fuel cs

/-- `len(re.findall(pattern, content))` for the patterns above. -/
def countMatches (step : List Char → Option (List Char)) (s : String) : Nat :=
  countMatchesAux step (s.toList.length + 1) s.toList

/-- Case-insensitive literal match (the literal is given lower-case). -/
def matchCI (lit : List Char) (cs : List Char) : Option (List Char) :=
  match lit, cs with
  | [], rest => some rest
  | _, [] => none
  | l :: ls, c :: cs' => if c.toLower == l then matchCI ls cs' else none

/-- The remainders after matching the keyword alternation
`api[_-]?key|secret|password|token` (case-insensitively) at the head of
the input (line 183). -/
def keywordRemainders (cs : List Char) : List (List Char) :=
  ((matchCI "api".toList cs).toList.flatMap (fun r =>
      (match r with
       | c :: r2 => if c == '_' || c == '-' then (matchCI "key".toList r2).toList else []
       | [] => [])
      ++ (matchCI "key".toList r).toList))
  ++ (matchCI "secret".toList cs).toList
  ++ (matchCI "password".toList cs).toList
  ++ (matchCI "token".toList cs).toList

/-- Either quote character of the credential pattern. -/
def isQuote (c : Char) : Bool :=
  c == '"' || c == '\''

/-- The `\s*=\s*["']([^"']+)["']` tail of the credential pattern
(line 183), applied after a keyword match. -/
def securityTail (r : List Char) : Bool :=
  match r.dropWhile isPyWs with
  | '=' :: r2 =>
    match r2.dropWhile isPyWs with
    | q :: r3 =>
      isQuote q &&
        !(r3.takeWhile (fun c => !(isQuote c))).isEmpty &&
        !(r3.dropWhile (fun c => !(isQuote c))).isEmpty
    | [] => false
  | _ => false

/-- Whether the hardcoded-credential pattern of line 183 matches anywhere
in the content (only presence matters: one Security finding per file). -/
def hasSecurityMatch (s : String) : Bool :=
  s.toList.tails.any (fun t => (keywordRemainders t).any securityTail)

/-- The findings `find_errors` records for one (read) file, in source
order: the type-specific checks of lines 140–180, then the credential
check of lines 182–189. -/
def fileFindings (f : ScannedFile) : List Finding :=
  (if f.type == "Python" then
    (if countMatches pyTodoStep f.content > 0 then
      [{ file := f.path, type := "TODO",
         message := "Found " ++ toString (countMatches pyTodoStep f.content) ++ " TODO comments" }]
     else [])
    ++ (if countMatches bareExceptStep f.content > 0 then
      [{ file := f.path, type := "Code Quality",
         message := "Found bare except clause - should specify exception type" }]
     else [])
   else if ["JavaScript", "TypeScript", "React", "React/TypeScript"].contains f.type then
    (if countMatches consoleLogStep f.content > 0 then
      [{ file := f.path, type := "Development Code",
         message := "Found " ++ toString (countMatches consoleLogStep f.content) ++ " console.log statements" }]
     else [])
    ++ (if countMatches jsTodoStep f.content > 0 then
      [{ file := f.path, type := "TODO",
         message := "Found " ++ toString (countMatches jsTodoStep f.content) ++ " TODO comments" }]
     else [])
   else [])
  ++ (if hasSecurityMatch f.content then
    [{ file := f.path, type := "Security",
       message := "Potential hardcoded credentials found" }]
   else [])

/-- `ProjectAnalyzer.find_errors` (lines 123–196): skip any file whose
size exceeds 1,000,000 bytes or whose type is `Unknown` (line 132);
otherwise accumulate that file's findings. -/
def find_errors (files : List ScannedFile) : List Finding :=
  files.foldl
    (fun errors f =>
      if decide (f.size > 1000000) || f.type == "Unknown" then errors
      else errors ++ fileFindings f)
    []

/-! ### analyze_project.py — dependency detection and prompt fragments -/

/-- The `ai_libraries` key table of `analyze_code_structure`
(lines 217–223), in definition order. -/
def AI_LIBRARIES : List String :=
  ["langchain", "autogen", "crewai", "openai", "anthropic"]

/-- One attempt of `rf'{lib}[=~><]'` (case-insensitive, line 246) at the
head of the input. -/
def libConstraintAt (lib : List Char) (t : List Char) : Bool :=
  match matchCI lib t with
  | some (c :: _) => c == '=' || c == '~' || c == '>' || c == '<'
  | _ => false

/-- `re.search(rf'{lib}[=~><]', content, re.IGNORECASE)` as a Boolean. -/
def libConstraintMatch (lib : String) (content : String) : Bool :=
  content.toList.tails.any (libConstraintAt lib.toList)

/-- The manifest filter of line 226:
`f["path"].endswith(("requirements.txt", "package.json"))`. -/
def isDependencyManifest (path : String) : Bool :=
  strEndsWith path "requirements.txt" || strEndsWith path "package.json"

/-- `self.code_analysis["ai_libraries"]` as computed by
`analyze_code_structure` (lines 226–247 and 277): a library is listed
iff some `requirements.txt` manifest among the discovered files matches
`lib[=~><]` case-insensitively.  The `package.json` branch (lines
249–266) never touches the `ai_libraries` flags, and each flag is only
ever set to `True`, so the loop over manifest files is an `any`. -/
def analyzeAiLibraries (files : List ScannedFile) : List String :=
  let req_files := files.filter (fun f => isDependencyManifest f.path)
  AI_LIBRARIES.filter (fun lib =>
    req_files.any (fun f => strEndsWith f.path "requirements.txt" && libConstraintMatch lib f.content))

/-- The AI-libraries line of the generated prompt
(`_generate_claude_prompt` line 343, without its trailing newlines):
`"- AI Libraries: " + ", ".join(self.code_analysis.get('ai_libraries', ['None detected']))`.
The argument is `none` when the `ai_libraries` key is absent from the
`code_analysis` dict. -/
def aiLibrariesLine (ai_libraries : Option (List String)) : String :=
  "- AI Libraries: " ++ String.intercalate ", " ((ai_libraries).getD ["None detected"])

/-- The AI-libraries prompt line as produced by `run_analysis`, which
always runs `analyze_code_structure` (setting the `ai_libraries` key,
line 277) before `generate_next_steps` builds the prompt. -/
def runAiLibrariesLine (files : List ScannedFile) : String :=
  aiLibrariesLine (some (analyzeAiLibraries files))

/-! ### backend/app — password & token utilities

`backend/app/utils.py` and `backend/app/auth.py` are referenced by
`main.py` but absent from `src/`; the definitions below are modelled
from the spec (§4.3). -/

/-- Modelled from the spec: `hash_password` of `backend/app/utils.py`
(absent from `src/`) — "turn a plaintext password into a one-way hashed
representation suitable for storage" (§4.3).  Modelled as a tagged
injection of the plaintext. -/
def hash_password (password : String) : String :=
  "hashed$" ++ password

/-- Modelled from the spec: `verify_password` of `backend/app/utils.py`
(absent from `src/`) — "verify a plaintext candidate against a stored
hash" (§4.3). -/
def verify_password (plain_password hashed_password : String) : Bool :=
  hash_password plain_password == hashed_password

/-- Modelled from the spec: the bearer access token issued by
`auth.create_access_token` of `backend/app/auth.py` (absent from
`src/`) — it encodes "the authenticated subject's email" as the token
data's `sub` together with "a fixed validity window of 30 minutes"
(§4.3/§6). -/
structure AccessToken where
  sub : String
  expires_minutes : Nat
deriving DecidableEq

/-- Modelled from the spec: `auth.create_access_token` of
`backend/app/auth.py` (absent from `src/`). -/
def create_access_token (sub : String) (expires_minutes : Nat) : AccessToken :=
  { sub := sub, expires_minutes := expires_minutes }

/-! ### backend/app — data model rows and schemas

Rows mirror `backend/app/models.py`; creation payloads mirror
`backend/app/schemas.py`.  The wall-clock `created_at`/`last_accessed`
column defaults are outside the embedding (no claim concerns them), and
the dormant `LearningProgress` entity has no endpoint.  Row identifiers
are assigned by the persistence layer (`backend/app/database.py`, absent
from `src/`), modelled from the spec as fresh generated naturals (§3:
"numeric identifier (unique, generated)"). -/

/-- A `users` row (`models.User`): id, email, hashed password, active flag. -/
structure UserRow where
  id : Nat
  email : String
  hashed_password : String
  is_active : Bool
deriving DecidableEq

/-- A `user_profiles` row (`models.UserProfile`).  The profile-creation
endpoint passes the schema's plain optional strings straight through
(`models.UserProfile(**user_profile.dict())`, line 106), so the stored
learning style and experience level are modelled as the given optional
strings. -/
structure UserProfileRow where
  id : Nat
  user_id : Nat
  first_name : Option String
  last_name : Option String
  learning_style : Option String
  experience_level : Option String
  goals : Option String
deriving DecidableEq

/-- A `courses` row (`models.Course`). -/
structure CourseRow where
  id : Nat
  title : String
  description : String
  difficulty_level : String
  prerequisites : Option String
deriving DecidableEq

/-- A `modules` row (`models.Module`). -/
structure ModuleRow where
  id : Nat
  course_id : Nat
  title : String
  description : String
  order : Int
deriving DecidableEq

/-- A `lessons` row (`models.Lesson`). -/
structure LessonRow where
  id : Nat
  module_id : Nat
  title : String
  content : String
  order : Int
deriving DecidableEq

/-- `schemas.UserCreate`. -/
structure UserCreate where
  email : String
  password : String
deriving DecidableEq

/-- `schemas.UserProfileCreate`: untyped optional strings for
`learning_style`/`experience_level` (lines 28–36 of `schemas.py`). -/
structure UserProfileCreate where
  first_name : Option String
  last_name : Option String
  learning_style : Option String
  experience_level : Option String
  goals : Option String
  user_id : Nat
deriving DecidableEq

/-- `schemas.CourseCreate`. -/
structure CourseCreate where
  title : String
  description : String
  difficulty_level : String
  prerequisites : Option String
deriving DecidableEq

/-- `schemas.ModuleCreate`. -/
structure ModuleCreate where
  title : String
  description : String
  order : Int
  course_id : Nat
deriving DecidableEq

/-- `schemas.LessonCreate`. -/
structure LessonCreate where
  title : String
  content : String
  order : Int
  module_id : Nat
deriving DecidableEq

/-- The form body of `POST /token` (`OAuth2PasswordRequestForm`):
username (the email) and password. -/
structure AuthForm where
  username : String
  password : String
deriving DecidableEq

/-- `schemas.Token` (the `access_token` string is the modelled token). -/
structure Token where
  access_token : AccessToken
  token_type : String
deriving DecidableEq

/-- Modelled from the spec: the relational store behind the per-request
session (`backend/app/database.py` absent from `src/`): one list of rows
per table, in insertion order (§3/§8.5: rows are listable in insertion
order; identifiers generated on insert). -/
structure Store where
  users : List UserRow
  user_profiles : List UserProfileRow
  courses : List CourseRow
  modules : List ModuleRow
  lessons : List LessonRow
deriving DecidableEq

/-- The store with all tables empty. -/
def Store.empty : Store :=
  ⟨[], [], [], [], []⟩

/-- Modelled from the spec: identifier generation on insert (§3):
one more than the largest identifier in use, hence fresh. -/
def nextId (ids : List Nat) : Nat :=
  ids.foldl max 0 + 1

/-- An endpoint response: either a success with an HTTP status and a
payload, or an `HTTPException` with status, detail and headers. -/
inductive Resp (α : Type) where
  | ok (status : Nat) (value : α)
  | err (status : Nat) (detail : String) (headers : List (String × String))
deriving DecidableEq

/-! ### backend/app/main.py — endpoints -/

/-- `login_for_access_token` (`main.py` lines 15–34): look up the first
user with the form's username as email; unknown email and failed
password verification both raise the same 401 with detail
"Incorrect username or password" and a `WWW-Authenticate: Bearer`
header; on success, return a bearer token for the user's email with a
30-minute expiry. -/
def login_for_access_token (db : Store) (form_data : AuthForm) : Resp Token :=
  match db.users.find? (fun u => u.email == form_data.username) with
  | none => .err 401 "Incorrect username or password" [("WWW-Authenticate", "Bearer")]
  | some user =>
    if !(verify_password form_data.password user.hashed_password) then
      .err 401 "Incorrect username or password" [("WWW-Authenticate", "Bearer")]
    else
      .ok 200 { access_token := create_access_token user.email 30, token_type := "bearer" }

/-- The `models.User` row inserted by `create_user` (lines 71–73):
fresh id, the request's email, the hashed password, and the
`is_active` column default `True`. -/
def insertedUser (db : Store) (user : UserCreate) : UserRow :=
  { id := nextId (db.users.map (fun u => u.id)), email := user.email,
    hashed_password := hash_password user.password, is_active := true }

/-- `create_user` (`main.py` lines 66–76): 400 "Email already registered"
when some user already has the email (store unchanged), else insert a
new user row and return it with status 201. -/
def create_user (db : Store) (user : UserCreate) : Store × Resp UserRow :=
  match db.users.find? (fun u => u.email == user.email) with
  | some _ => (db, .err 400 "Email already registered" [])
  | none =>
    ({ db with users := db.users ++ [insertedUser db user] }, .ok 201 (insertedUser db user))

/-- `read_user` (`main.py` lines 78–83). -/
def read_user (db : Store) (user_id : Nat) : Resp UserRow :=
  match db.users.find? (fun u => u.id == user_id) with
  | some u => .ok 200 u
  | none => .err 404 "User not found" []

/-- `get_courses` (`main.py` lines 86–89):
`db.query(models.Course).offset(skip).limit(limit).all()` over the
insertion-ordered `courses` table. -/
def get_courses (db : Store) (skip : Nat) (limit : Nat) : List CourseRow :=
  (db.courses.drop skip).take limit

/-- The `models.UserProfile` row inserted by `create_user_profile`
(line 106): `models.UserProfile(**user_profile.dict())` plus a fresh id;
every schema field is passed through unchanged. -/
def insertedProfile (db : Store) (user_profile : UserProfileCreate) : UserProfileRow :=
  { id := nextId (db.user_profiles.map (fun p => p.id)), user_id := user_profile.user_id,
    first_name := user_profile.first_name, last_name := user_profile.last_name,
    learning_style := user_profile.learning_style,
    experience_level := user_profile.experience_level, goals := user_profile.goals }

/-- `create_user_profile` (`main.py` lines 100–110): 400 "User not found"
when no user has the referenced `user_id` (store unchanged), else insert
the profile row verbatim and return it with status 201.  No check of any
kind is applied to `learning_style` or `experience_level`. -/
def create_user_profile (db : Store) (user_profile : UserProfileCreate) :
    Store × Resp UserProfileRow :=
  match db.users.find? (fun u => u.id == user_profile.user_id) with
  | none => (db, .err 400 "User not found" [])
  | some _ =>
    ({ db with user_profiles := db.user_profiles ++ [insertedProfile db user_profile] },
      .ok 201 (insertedProfile db user_profile))

/-- The `models.Course` row inserted by `create_course` (line 114). -/
def insertedCourse (db : Store) (course : CourseCreate) : CourseRow :=
  { id := nextId (db.courses.map (fun c => c.id)), title := course.title,
    description := course.description, difficulty_level := course.difficulty_level,
    prerequisites := course.prerequisites }

/-- `create_course` (`main.py` lines 112–118; the `/courses` alias of
lines 120–126 performs the identical action). -/
def create_course (db : Store) (course : CourseCreate) : Store × Resp CourseRow :=
  ({ db with courses := db.courses ++ [insertedCourse db course] },
    .ok 201 (insertedCourse db course))

/-- The `models.Module` row inserted by `create_module` (line 133). -/
def insertedModule (db : Store) (m : ModuleCreate) : ModuleRow :=
  { id := nextId (db.modules.map (fun x => x.id)), course_id := m.course_id,
    title := m.title, description := m.description, order := m.order }

/-- `create_module` (`main.py` lines 128–137): 400 "Course not found"
when no course has the referenced `course_id` (store unchanged), else
insert the module row and return it with status 201. -/
def create_module (db : Store) (m : ModuleCreate) : Store × Resp ModuleRow :=
  match db.courses.find? (fun c => c.id == m.course_id) with
  | none => (db, .err 400 "Course not found" [])
  | some _ =>
    ({ db with modules := db.modules ++ [insertedModule db m] }, .ok 201 (insertedModule db m))

/-- The `models.Lesson` row inserted by `create_lesson` (line 144). -/
def insertedLesson (db : Store) (l : LessonCreate) : LessonRow :=
  { id := nextId (db.lessons.map (fun x => x.id)), module_id := l.module_id,
    title := l.title, content := l.content, order := l.order }

/-- `create_lesson` (`main.py` lines 139–148): 400 "Module not found"
when no module has the referenced `module_id` (store unchanged), else
insert the lesson row and return it with status 201. -/
def create_lesson (db : Store) (l : LessonCreate) : Store × Resp LessonRow :=
  match db.modules.find? (fun m => m.id == l.module_id) with
  | none => (db, .err 400 "Module not found" [])
  | some _ =>
    ({ db with lessons := db.lessons ++ [insertedLesson db l] }, .ok 201 (insertedLesson db l))

/-- Sequential course creation through `POST /courses/` starting from a
given store (used to state the listing claim). -/
def create_courses (db : Store) (reqs : List CourseCreate) : Store :=
  reqs.foldl (fun d c => (create_course d c).1) db

/-! ## Helper lemmas -/

theorem foldl_max_le_init (l : List Nat) (b : Nat) : b ≤ l.foldl max b := by
  induction l generalizing b with
  | nil => simp
  | cons a t ih => exact le_trans (le_max_left b a) (ih (max b a))

theorem le_foldl_max_of_mem {l : List Nat} {a : Nat} (b : Nat) (h : a ∈ l) :
    a ≤ l.foldl max b := by
  induction l generalizing b with
  | nil => cases h
  | cons x t ih =>
    rcases List.mem_cons.mp h with rfl | h'
    · exact le_trans (le_max_right b a) (foldl_max_le_init t (max b a))
    · exact ih _ h'

theorem lt_nextId_of_mem {ids : List Nat} {a : Nat} (h : a ∈ ids) : a < nextId ids :=
  Nat.lt_succ_of_le (le_foldl_max_of_mem 0 h)

theorem find?_append_of_eq_none {α} (p : α → Bool) {l : List α} (l' : List α)
    (h : l.find? p = none) : (l ++ l').find? p = l'.find? p := by
  induction l with
  | nil => rfl
  | cons x t ih =>
    cases hx : p x with
    | true => simp [List.find?_cons, hx] at h
    | false =>
      rw [List.find?_cons, hx] at h
      rw [List.cons_append, List.find?_cons, hx]
      exact ih h

theorem countP_partition_three {α} (l : List α) (p1 p2 p3 : α → Bool)
    (h : ∀ x ∈ l,
      (p1 x = true ∧ p2 x = false ∧ p3 x = false) ∨
      (p1 x = false ∧ p2 x = true ∧ p3 x = false) ∨
      (p1 x = false ∧ p2 x = false ∧ p3 x = true)) :
    l.countP p1 + l.countP p2 + l.countP p3 = l.length := by
  induction l with
  | nil => simp
  | cons a t ih =>
    have ha := h a (List.mem_cons_self a t)
    have ht := ih (fun x hx => h x (List.mem_cons_of_mem a hx))
    simp only [List.countP_cons, List.length_cons]
    rcases ha with ⟨h1, h2, h3⟩ | ⟨h1, h2, h3⟩ | ⟨h1, h2, h3⟩ <;> simp [h1, h2, h3] <;> omega

theorem componentStatus_pct (files exps : List String) :
    (componentStatus files exps).completion_percentage =
      if exps.length > 0 then
        ((exps.length - (componentStatus files exps).missing_files.length : ℕ) : ℚ) /
          (exps.length : ℚ) * 100
      else 0 := rfl

theorem componentStatus_status_eq (files exps : List String) :
    (componentStatus files exps).status =
      if (componentStatus files exps).completion_percentage = 100 then "Complete"
      else if (componentStatus files exps).completion_percentage > 0 then "In Progress"
      else "Not Started" := rfl

theorem componentStatus_status_trichotomy (files exps : List String) :
    (componentStatus files exps).status = "Complete" ∨
    (componentStatus files exps).status = "In Progress" ∨
    (componentStatus files exps).status = "Not Started" := by
  rw [componentStatus_status_eq]
  split
  · exact Or.inl rfl
  · split
    · exact Or.inr (Or.inl rfl)
    · exact Or.inr (Or.inr rfl)

theorem componentStatus_missing_mem (files expected_files : List String) (e : String) :
    e ∈ (componentStatus files expected_files).missing_files ↔
      (e ∈ expected_files ∧ ¬ ∃ p ∈ files, p = e ∨ strStartsWith p (e ++ "/") = true) := by
  show e ∈ expected_files.filter (fun e' => !(files.any (pathMatchesExpected e'))) ↔ _
  simp [List.mem_filter, List.any_eq_true, pathMatchesExpected, Bool.or_eq_true, beq_iff_eq]

theorem foldl_skip_flatMap {α β : Type} (p : α → Bool) (g : α → List β) :
    ∀ (l : List α) (acc : List β),
      l.foldl (fun a e => if p e then a else a ++ g e) acc =
        acc ++ (l.filter (fun e => !(p e))).flatMap g := by
  intro l
  induction l with
  | nil => intro acc; simp
  | cons x t ih =>
    intro acc
    rw [List.foldl_cons, List.filter_cons]
    cases hx : p x with
    | true => simp [hx, ih]
    | false => simp [hx, ih]

theorem flatMap_singleton_eq_map {α β : Type} (f : α → β) (l : List α) :
    l.flatMap (fun x => [f x]) = l.map f := by
  induction l with
  | nil => rfl
  | cons x t ih => simp [ih]

/-! ## Claim theorems -/

/-- C1 (amended): an expected sub-path counts as found (is not listed as
missing) exactly when some discovered file's path relative to the target
root equals the sub-path or begins with the sub-path followed by the
path separator; consequently, for a target root containing exactly the
files `main.py` and `requirements.txt` at top level (relative paths
without any directory prefix), the backend component's completion
percentage is 40, its status is "In Progress", and its missing list is
exactly `[models.py, database.py, routers]`.  (The matching never
prefixes the component name, so the same files at `backend/main.py` and
`backend/requirements.txt` match nothing — see the counterexample.) -/
theorem C1_component_found_criterion (files expected_files : List String) (e : String) :
    (e ∈ (componentStatus files expected_files).missing_files ↔
      (e ∈ expected_files ∧ ¬ ∃ p ∈ files, p = e ∨ strStartsWith p (e ++ "/") = true)) ∧
    List.lookup "backend" (analyze_component_status ["main.py", "requirements.txt"]) =
      some ⟨"In Progress", 40, ["main.py", "requirements.txt"],
        ["models.py", "database.py", "routers"]⟩ := by
  constructor
  · exact componentStatus_missing_mem files expected_files e
  · have h : List.lookup "backend" (analyze_component_status ["main.py", "requirements.txt"]) =
        some (componentStatus ["main.py", "requirements.txt"]
          ["main.py", "requirements.txt", "models.py", "database.py", "routers"]) := rfl
    rw [h]
    congr 1
    have h2 : (componentStatus ["main.py", "requirements.txt"]
        ["main.py", "requirements.txt", "models.py", "database.py", "routers"]).completion_percentage =
        40 := by
      rw [componentStatus_pct]
      have hm : (componentStatus ["main.py", "requirements.txt"]
          ["main.py", "requirements.txt", "models.py", "database.py", "routers"]).missing_files =
          ["models.py", "database.py", "routers"] := by decide
      rw [hm]
      norm_num
    have h1 : (componentStatus ["main.py", "requirements.txt"]
        ["main.py", "requirements.txt", "models.py", "database.py", "routers"]).status =
        "In Progress" := by
      rw [componentStatus_status_eq, h2]
      norm_num
    have h3 : (componentStatus ["main.py", "requirements.txt"]
        ["main.py", "requirements.txt", "models.py", "database.py", "routers"]).found_files =
        ["main.py", "requirements.txt"] := by decide
    have h4 : (componentStatus ["main.py", "requirements.txt"]
        ["main.py", "requirements.txt", "models.py", "database.py", "routers"]).missing_files =
        ["models.py", "database.py", "routers"] := by decide
    calc componentStatus ["main.py", "requirements.txt"]
          ["main.py", "requirements.txt", "models.py", "database.py", "routers"] =
        ⟨(componentStatus ["main.py", "requirements.txt"]
            ["main.py", "requirements.txt", "models.py", "database.py", "routers"]).status,
          (componentStatus ["main.py", "requirements.txt"]
            ["main.py", "requirements.txt", "models.py", "database.py", "routers"]).completion_percentage,
          (componentStatus ["main.py", "requirements.txt"]
            ["main.py", "requirements.txt", "models.py", "database.py", "routers"]).found_files,
          (componentStatus ["main.py", "requirements.txt"]
            ["main.py", "requirements.txt", "models.py", "database.py", "routers"]).missing_files⟩ := rfl
      _ = ⟨"In Progress", 40, ["main.py", "requirements.txt"],
          ["models.py", "database.py", "routers"]⟩ := by rw [h1, h2, h3, h4]

/-- C1 (counterexample to the claim as stated): with the discovered files
at `backend/main.py` and `backend/requirements.txt` relative to the
target root — the claim's own scenario — no expected backend sub-path
matches, so the completion percentage is 0 (not 40), the status is
"Not Started" (not "In Progress"), and all five expected sub-paths are
missing. -/
theorem C1_counterexample :
    (List.lookup "backend"
        (analyze_component_status ["backend/main.py", "backend/requirements.txt"])).map
      (fun st => st.completion_percentage) ≠ some 40 ∧
    List.lookup "backend"
        (analyze_component_status ["backend/main.py", "backend/requirements.txt"]) =
      some ⟨"Not Started", 0, [],
        ["main.py", "requirements.txt", "models.py", "database.py", "routers"]⟩ := by
  have h : List.lookup "backend"
      (analyze_component_status ["backend/main.py", "backend/requirements.txt"]) =
      some (componentStatus ["backend/main.py", "backend/requirements.txt"]
        ["main.py", "requirements.txt", "models.py", "database.py", "routers"]) := rfl
  have h2 : (componentStatus ["backend/main.py", "backend/requirements.txt"]
      ["main.py", "requirements.txt", "models.py", "database.py", "routers"]).completion_percentage =
      0 := by
    rw [componentStatus_pct]
    have hm : (componentStatus ["backend/main.py", "backend/requirements.txt"]
        ["main.py", "requirements.txt", "models.py", "database.py", "routers"]).missing_files =
        ["main.py", "requirements.txt", "models.py", "database.py", "routers"] := by decide
    rw [hm]
    norm_num
  have h1 : (componentStatus ["backend/main.py", "backend/requirements.txt"]
      ["main.py", "requirements.txt", "models.py", "database.py", "routers"]).status =
      "Not Started" := by
    rw [componentStatus_status_eq, h2]
    norm_num
  have h3 : (componentStatus ["backend/main.py", "backend/requirements.txt"]
      ["main.py", "requirements.txt", "models.py", "database.py", "routers"]).found_files =
      [] := by decide
  have h4 : (componentStatus ["backend/main.py", "backend/requirements.txt"]
      ["main.py", "requirements.txt", "models.py", "database.py", "routers"]).missing_files =
      ["main.py", "requirements.txt", "models.py", "database.py", "routers"] := by decide
  constructor
  · rw [h]
    intro hc
    have h40 : (componentStatus ["backend/main.py", "backend/requirements.txt"]
        ["main.py", "requirements.txt", "models.py", "database.py", "routers"]).completion_percentage =
        40 := Option.some.inj hc
    rw [h2] at h40
    norm_num at h40
  · rw [h]
    congr 1
    calc componentStatus ["backend/main.py", "backend/requirements.txt"]
          ["main.py", "requirements.txt", "models.py", "database.py", "routers"] =
        ⟨(componentStatus ["backend/main.py", "backend/requirements.txt"]
            ["main.py", "requirements.txt", "models.py", "database.py", "routers"]).status,
          (componentStatus ["backend/main.py", "backend/requirements.txt"]
            ["main.py", "requirements.txt", "models.py", "database.py", "routers"]).completion_percentage,
          (componentStatus ["backend/main.py", "backend/requirements.txt"]
            ["main.py", "requirements.txt", "models.py", "database.py", "routers"]).found_files,
          (componentStatus ["backend/main.py", "backend/requirements.txt"]
            ["main.py", "requirements.txt", "models.py", "database.py", "routers"]).missing_files⟩ := rfl
      _ = ⟨"Not Started", 0, [],
          ["main.py", "requirements.txt", "models.py", "database.py", "routers"]⟩ := by
        rw [h1, h2, h3, h4]

/-- C8: the component-status table always assigns each of the 7 fixed
expected components exactly one status among Complete, In Progress and
Not Started, and the generated prompt's Project Status counts of
Complete, In Progress and Not Started always sum to exactly 7, for any
discovered file list. -/
theorem C8_status_counts_sum (files : List String) :
    (analyze_component_status files).length = 7 ∧
    (analyze_component_status files).all (fun e =>
      e.2.status == "Complete" || e.2.status == "In Progress" ||
        e.2.status == "Not Started") = true ∧
    completedCount (analyze_component_status files) +
      inProgressCount (analyze_component_status files) +
      notStartedCount (analyze_component_status files) = 7 := by
  refine ⟨rfl, ?_, ?_⟩
  · rw [List.all_eq_true]
    intro e he
    rcases List.mem_map.mp he with ⟨c, _, rfl⟩
    rcases componentStatus_status_trichotomy files c.2 with h | h | h <;> simp [h]
  · have hpart := countP_partition_three (analyze_component_status files)
      (fun e => e.2.status == "Complete") (fun e => e.2.status == "In Progress")
      (fun e => e.2.status == "Not Started") ?_
    · rw [completedCount, inProgressCount, notStartedCount, hpart]
      rfl
    · intro x hx
      rcases List.mem_map.mp hx with ⟨c, _, rfl⟩
      rcases componentStatus_status_trichotomy files c.2 with h | h | h
      · exact Or.inl ⟨by simp [h], by simp [h], by simp [h]⟩
      · exact Or.inr (Or.inl ⟨by simp [h], by simp [h], by simp [h]⟩)
      · exact Or.inr (Or.inr ⟨by simp [h], by simp [h], by simp [h]⟩)

/-- C6 (amended): the directory scan records exactly those walked files
whose own base name does not begin with `.` and whose walk-root
directory path (the target root joined with the directory components)
does not contain the substring `__pycache__`; dot-named directories are
not pruned, so a file nested inside one (e.g. `.git/config`) IS
recorded whenever its own name does not begin with `.`. -/
theorem C6_scan_filter (projectRoot : String) (entries : List WalkEntry) :
    scan_directory projectRoot entries =
      (entries.filter (fun e =>
        !(strStartsWith e.name "." ||
          strContainsSubstr (walkRoot projectRoot e.dirs) "__pycache__"))).map
        (fun e => { path := relPath e, type := fileTypeOf e.name, size := e.size }) := by
  have h := foldl_skip_flatMap
    (fun e : WalkEntry => strStartsWith e.name "." ||
      strContainsSubstr (walkRoot projectRoot e.dirs) "__pycache__")
    (fun e : WalkEntry =>
      [({ path := relPath e, type := fileTypeOf e.name, size := e.size } : FileRec)])
    entries []
  rw [List.nil_append, flatMap_singleton_eq_map] at h
  exact h

/-- C6 (counterexample to the claim as stated): the walk of a target
root `proj` holding the single file `.git/config` records that file —
the base-name check does not look at directory names and `os.walk` is
never pruned — whereas the claim says every file nested inside a
dot-named directory is excluded from the discovered set. -/
theorem C6_counterexample :
    scan_directory "proj" [⟨[".git"], "config", 10⟩] =
      [{ path := ".git/config", type := "Unknown", size := 10 }] := by decide

/-- C9 (amended): the error/finding scan reads and pattern-checks
exactly those discovered files whose size is at most 1,000,000 bytes
(the skip condition is `size > 1000000`, so a file of exactly 1,000,000
bytes is checked) and whose classified type is not Unknown; every file
strictly larger than 1,000,000 bytes, and every file of type Unknown,
is skipped and contributes no finding. -/
theorem C9_error_scan_filter (files : List ScannedFile) :
    find_errors files =
      (files.filter (fun f =>
        decide (f.size ≤ 1000000) && !(f.type == "Unknown"))).flatMap fileFindings := by
  have hpred : (fun f : ScannedFile => !(decide (f.size > 1000000) || f.type == "Unknown")) =
      (fun f : ScannedFile => decide (f.size ≤ 1000000) && !(f.type == "Unknown")) := by
    funext f
    rw [Bool.not_or]
    congr 1
    rw [← decide_not, decide_eq_decide]
    exact Nat.not_lt
  have h := foldl_skip_flatMap
    (fun f : ScannedFile => decide (f.size > 1000000) || f.type == "Unknown")
    fileFindings files []
  rw [List.nil_append, hpred] at h
  exact h

/-- C9 (counterexample to the claim as stated): a Python file of exactly
1,000,000 bytes is not skipped — the scan checks it and records its
TODO finding — whereas the claim says every file of size 1,000,000
bytes or more is skipped and contributes no finding. -/
theorem C9_counterexample :
    find_errors [⟨"big.py", "Python", 1000000, "# TODO"⟩] =
      [{ file := "big.py", type := "TODO", message := "Found 1 TODO comments" }] := by decide

/-- C7: evaluation at the failing input.  For a project whose discovered
files contain no dependency manifest (here: a single `README.md`), the
detected AI-library list is empty; yet the generated prompt's AI
Libraries line, as produced by the pipeline (`run_analysis` always sets
the `ai_libraries` key before the prompt is built), reads
`"- AI Libraries: "` with empty text — not `"- AI Libraries: None
detected"` as the spec states.  The code's `['None detected']` fallback
fires only when the key is absent altogether (last conjunct), which the
pipeline never leaves it. -/
theorem C7_none_detected_unreachable :
    analyzeAiLibraries [⟨"README.md", "Markdown", 12, "# AI Tutor"⟩] = [] ∧
    runAiLibrariesLine [⟨"README.md", "Markdown", 12, "# AI Tutor"⟩] = "- AI Libraries: " ∧
    runAiLibrariesLine [⟨"README.md", "Markdown", 12, "# AI Tutor"⟩] ≠
      "- AI Libraries: None detected" ∧
    aiLibrariesLine none = "- AI Libraries: None detected" := by
  refine ⟨by decide, by decide, ?_, by decide⟩
  intro hc
  have : ("- AI Libraries: " : String) = "- AI Libraries: None detected" := by
    have h1 : runAiLibrariesLine [⟨"README.md", "Markdown", 12, "# AI Tutor"⟩] =
        "- AI Libraries: " := by decide
    rw [← h1, hc]
  simp at this

/-- C2: for every store state and user-creation request, if some existing
user already has the requested email then `create_user` fails with 400
"Email already registered" and the store is unchanged; if no existing
user has that email then it succeeds with 201 and a subsequent
`read_user` with the returned identifier returns a user with the same
email and `is_active = true`. -/
theorem C2_create_user_spec (db : Store) (req : UserCreate) :
    ((∃ u ∈ db.users, u.email = req.email) →
      create_user db req = (db, .err 400 "Email already registered" [])) ∧
    ((∀ u ∈ db.users, u.email ≠ req.email) →
      create_user db req =
        ({ db with users := db.users ++ [insertedUser db req] }, .ok 201 (insertedUser db req)) ∧
      (insertedUser db req).email = req.email ∧
      (insertedUser db req).is_active = true ∧
      read_user (create_user db req).1 (insertedUser db req).id =
        .ok 200 (insertedUser db req)) := by
  constructor
  · rintro ⟨u, hu, he⟩
    cases hf : db.users.find? (fun x => x.email == req.email) with
    | none =>
      exact absurd (by simp [he]) (List.find?_eq_none.mp hf u hu)
    | some v =>
      simp [create_user, hf]
  · intro hnone
    have hf : db.users.find? (fun x => x.email == req.email) = none :=
      List.find?_eq_none.mpr (fun u hu => by simp [hnone u hu])
    have hcreate : create_user db req =
        ({ db with users := db.users ++ [insertedUser db req] },
          .ok 201 (insertedUser db req)) := by
      simp [create_user, hf]
    refine ⟨hcreate, rfl, rfl, ?_⟩
    rw [hcreate]
    have hid : ∀ u ∈ db.users, (u.id == (insertedUser db req).id) = false := by
      intro u hu
      have hlt : u.id < (insertedUser db req).id :=
        lt_nextId_of_mem (List.mem_map.mpr ⟨u, hu, rfl⟩)
      exact beq_eq_false_iff_ne.mpr (Nat.ne_of_lt hlt)
    have hfind : db.users.find? (fun u => u.id == (insertedUser db req).id) = none :=
      List.find?_eq_none.mpr (fun u hu => by rw [hid u hu]; exact Bool.false_ne_true)
    show read_user { db with users := db.users ++ [insertedUser db req] }
        (insertedUser db req).id = .ok 200 (insertedUser db req)
    rw [read_user]
    show (match (db.users ++ [insertedUser db req]).find?
        (fun u => u.id == (insertedUser db req).id) with
      | some u => Resp.ok 200 u
      | none => Resp.err 404 "User not found" []) = .ok 200 (insertedUser db req)
    rw [find?_append_of_eq_none _ _ hfind]
    simp [List.find?_cons]

/-- C2 witness: both branches exercised at concrete stores.  With a user
holding `a@b.c` already present, creating another `a@b.c` account fails
with 400 and leaves the store unchanged; on the empty store, creating
`new@x.y` succeeds with 201 and reading the returned id back yields the
same email with the active flag set. -/
theorem C2_create_user_spec_witness :
    (create_user ⟨[⟨1, "a@b.c", "h", true⟩], [], [], [], []⟩ ⟨"a@b.c", "pw2"⟩ =
      (⟨[⟨1, "a@b.c", "h", true⟩], [], [], [], []⟩, .err 400 "Email already registered" [])) ∧
    (create_user Store.empty ⟨"new@x.y", "pw"⟩ =
      ({ Store.empty with
          users := Store.empty.users ++ [insertedUser Store.empty ⟨"new@x.y", "pw"⟩] },
        .ok 201 (insertedUser Store.empty ⟨"new@x.y", "pw"⟩)) ∧
      (insertedUser Store.empty ⟨"new@x.y", "pw"⟩).email = "new@x.y" ∧
      (insertedUser Store.empty ⟨"new@x.y", "pw"⟩).is_active = true ∧
      read_user (create_user Store.empty ⟨"new@x.y", "pw"⟩).1
          (insertedUser Store.empty ⟨"new@x.y", "pw"⟩).id =
        .ok 200 (insertedUser Store.empty ⟨"new@x.y", "pw"⟩)) :=
  ⟨(C2_create_user_spec ⟨[⟨1, "a@b.c", "h", true⟩], [], [], [], []⟩ ⟨"a@b.c", "pw2"⟩).1
      ⟨⟨1, "a@b.c", "h", true⟩, by decide, rfl⟩,
    (C2_create_user_spec Store.empty ⟨"new@x.y", "pw"⟩).2 (by intro u hu; cases hu)⟩

/-- C3: token issuance is indistinguishable across failure causes.  For
any store: a request whose email matches no user and a request whose
email matches a user (the first match) but whose password fails
verification produce literally identical responses — same 401 status,
same "Incorrect username or password" detail, same
`WWW-Authenticate: Bearer` challenge header; a request whose email finds
a user and whose password verifies succeeds and returns a bearer token
whose encoded subject is the request's email. -/
theorem C3_login_indistinguishable (db : Store) (r1 r2 r3 : AuthForm) (u2 u3 : UserRow)
    (h1 : db.users.find? (fun u => u.email == r1.username) = none)
    (h2 : db.users.find? (fun u => u.email == r2.username) = some u2)
    (h2v : verify_password r2.password u2.hashed_password = false)
    (h3 : db.users.find? (fun u => u.email == r3.username) = some u3)
    (h3v : verify_password r3.password u3.hashed_password = true) :
    login_for_access_token db r1 = login_for_access_token db r2 ∧
    login_for_access_token db r1 =
      .err 401 "Incorrect username or password" [("WWW-Authenticate", "Bearer")] ∧
    login_for_access_token db r3 =
      .ok 200 { access_token := create_access_token u3.email 30, token_type := "bearer" } ∧
    u3.email = r3.username := by
  have e1 : login_for_access_token db r1 =
      .err 401 "Incorrect username or password" [("WWW-Authenticate", "Bearer")] := by
    simp [login_for_access_token, h1]
  have e2 : login_for_access_token db r2 =
      .err 401 "Incorrect username or password" [("WWW-Authenticate", "Bearer")] := by
    simp [login_for_access_token, h2, h2v]
  have e3 : login_for_access_token db r3 =
      .ok 200 { access_token := create_access_token u3.email 30, token_type := "bearer" } := by
    simp [login_for_access_token, h3, h3v]
  have hb := @List.find?_some _ (fun u : UserRow => u.email == r3.username) u3 db.users h3
  exact ⟨e1.trans e2.symm, e1, e3, eq_of_beq hb⟩

/-- C3 witness: with one user `u@x` whose stored hash is that of
`right`, the unknown-email request and the wrong-password request get
identical 401 responses, and the correct pair yields a token whose
subject is `u@x`. -/
theorem C3_login_indistinguishable_witness :
    login_for_access_token ⟨[⟨1, "u@x", hash_password "right", true⟩], [], [], [], []⟩
        ⟨"ghost@x", "whatever"⟩ =
      login_for_access_token ⟨[⟨1, "u@x", hash_password "right", true⟩], [], [], [], []⟩
        ⟨"u@x", "wrong"⟩ ∧
    login_for_access_token ⟨[⟨1, "u@x", hash_password "right", true⟩], [], [], [], []⟩
        ⟨"ghost@x", "whatever"⟩ =
      .err 401 "Incorrect username or password" [("WWW-Authenticate", "Bearer")] ∧
    login_for_access_token ⟨[⟨1, "u@x", hash_password "right", true⟩], [], [], [], []⟩
        ⟨"u@x", "right"⟩ =
      .ok 200 { access_token := create_access_token "u@x" 30, token_type := "bearer" } ∧
    ("u@x" : String) = "u@x" :=
  C3_login_indistinguishable
    ⟨[⟨1, "u@x", hash_password "right", true⟩], [], [], [], []⟩
    ⟨"ghost@x", "whatever"⟩ ⟨"u@x", "wrong"⟩ ⟨"u@x", "right"⟩
    ⟨1, "u@x", hash_password "right", true⟩ ⟨1, "u@x", hash_password "right", true⟩
    (by decide) (by decide) (by decide) (by decide) (by decide)

/-- C4: for every store state, creating a module whose `course_id`
matches no existing course fails with 400 "Course not found" and
persists nothing; creating a lesson whose `module_id` matches no
existing module fails with 400 "Module not found" and persists nothing;
when the referenced parent exists, each creation succeeds with 201 and
the created child's parent-id field equals the value supplied. -/
theorem C4_parent_existence_checks (db : Store) (m : ModuleCreate) (l : LessonCreate) :
    ((∀ c ∈ db.courses, c.id ≠ m.course_id) →
      create_module db m = (db, .err 400 "Course not found" [])) ∧
    ((∃ c ∈ db.courses, c.id = m.course_id) →
      create_module db m =
        ({ db with modules := db.modules ++ [insertedModule db m] },
          .ok 201 (insertedModule db m)) ∧
      (insertedModule db m).course_id = m.course_id) ∧
    ((∀ x ∈ db.modules, x.id ≠ l.module_id) →
      create_lesson db l = (db, .err 400 "Module not found" [])) ∧
    ((∃ x ∈ db.modules, x.id = l.module_id) →
      create_lesson db l =
        ({ db with lessons := db.lessons ++ [insertedLesson db l] },
          .ok 201 (insertedLesson db l)) ∧
      (insertedLesson db l).module_id = l.module_id) := by
  refine ⟨?_, ?_, ?_, ?_⟩
  · intro hn
    have hf : db.courses.find? (fun c => c.id == m.course_id) = none :=
      List.find?_eq_none.mpr (fun c hc => by simp [hn c hc])
    simp [create_module, hf]
  · rintro ⟨c, hc, he⟩
    cases hf : db.courses.find? (fun c => c.id == m.course_id) with
    | none => exact absurd (by simp [he]) (List.find?_eq_none.mp hf c hc)
    | some v => exact ⟨by simp [create_module, hf], rfl⟩
  · intro hn
    have hf : db.modules.find? (fun x => x.id == l.module_id) = none :=
      List.find?_eq_none.mpr (fun x hx => by simp [hn x hx])
    simp [create_lesson, hf]
  · rintro ⟨x, hx, he⟩
    cases hf : db.modules.find? (fun x => x.id == l.module_id) with
    | none => exact absurd (by simp [he]) (List.find?_eq_none.mp hf x hx)
    | some v => exact ⟨by simp [create_lesson, hf], rfl⟩

/-- C4 witness: on a store with one course (id 1) and one module (id 1),
a module referencing course 99 and a lesson referencing module 99 fail
with the respective 400 details and leave the store unchanged, while a
module referencing course 1 and a lesson referencing module 1 are
created with matching parent ids. -/
theorem C4_parent_existence_checks_witness :
    (create_module ⟨[], [], [⟨1, "C", "D", "Beginner", none⟩], [⟨1, 1, "M", "MD", 0⟩], []⟩
        ⟨"M2", "D2", 1, 99⟩ =
      (⟨[], [], [⟨1, "C", "D", "Beginner", none⟩], [⟨1, 1, "M", "MD", 0⟩], []⟩,
        .err 400 "Course not found" [])) ∧
    (create_module ⟨[], [], [⟨1, "C", "D", "Beginner", none⟩], [⟨1, 1, "M", "MD", 0⟩], []⟩
        ⟨"M2", "D2", 1, 1⟩ =
      ({ (⟨[], [], [⟨1, "C", "D", "Beginner", none⟩], [⟨1, 1, "M", "MD", 0⟩], []⟩ : Store) with
          modules := [⟨1, 1, "M", "MD", 0⟩] ++
            [insertedModule ⟨[], [], [⟨1, "C", "D", "Beginner", none⟩], [⟨1, 1, "M", "MD", 0⟩], []⟩
              ⟨"M2", "D2", 1, 1⟩] },
        .ok 201 (insertedModule ⟨[], [], [⟨1, "C", "D", "Beginner", none⟩], [⟨1, 1, "M", "MD", 0⟩], []⟩
          ⟨"M2", "D2", 1, 1⟩)) ∧
      (insertedModule ⟨[], [], [⟨1, "C", "D", "Beginner", none⟩], [⟨1, 1, "M", "MD", 0⟩], []⟩
        ⟨"M2", "D2", 1, 1⟩).course_id = 1) ∧
    (create_lesson ⟨[], [], [⟨1, "C", "D", "Beginner", none⟩], [⟨1, 1, "M", "MD", 0⟩], []⟩
        ⟨"L", "body", 0, 99⟩ =
      (⟨[], [], [⟨1, "C", "D", "Beginner", none⟩], [⟨1, 1, "M", "MD", 0⟩], []⟩,
        .err 400 "Module not found" [])) ∧
    (create_lesson ⟨[], [], [⟨1, "C", "D", "Beginner", none⟩], [⟨1, 1, "M", "MD", 0⟩], []⟩
        ⟨"L", "body", 0, 1⟩ =
      ({ (⟨[], [], [⟨1, "C", "D", "Beginner", none⟩], [⟨1, 1, "M", "MD", 0⟩], []⟩ : Store) with
          lessons := [] ++
            [insertedLesson ⟨[], [], [⟨1, "C", "D", "Beginner", none⟩], [⟨1, 1, "M", "MD", 0⟩], []⟩
              ⟨"L", "body", 0, 1⟩] },
        .ok 201 (insertedLesson ⟨[], [], [⟨1, "C", "D", "Beginner", none⟩], [⟨1, 1, "M", "MD", 0⟩], []⟩
          ⟨"L", "body", 0, 1⟩)) ∧
      (insertedLesson ⟨[], [], [⟨1, "C", "D", "Beginner", none⟩], [⟨1, 1, "M", "MD", 0⟩], []⟩
        ⟨"L", "body", 0, 1⟩).module_id = 1) := by
  have h := C4_parent_existence_checks
    ⟨[], [], [⟨1, "C", "D", "Beginner", none⟩], [⟨1, 1, "M", "MD", 0⟩], []⟩
    ⟨"M2", "D2", 1, 99⟩ ⟨"L", "body", 0, 99⟩
  have h' := C4_parent_existence_checks
    ⟨[], [], [⟨1, "C", "D", "Beginner", none⟩], [⟨1, 1, "M", "MD", 0⟩], []⟩
    ⟨"M2", "D2", 1, 1⟩ ⟨"L", "body", 0, 1⟩
  exact ⟨h.1 (by decide), h'.2.1 ⟨⟨1, "C", "D", "Beginner", none⟩, by decide, rfl⟩,
    h.2.2.1 (by decide), h'.2.2.2 ⟨⟨1, 1, "M", "MD", 0⟩, by decide, rfl⟩⟩

/-- C10: the user-profile creation endpoint applies no enumeration check
to `learning_style` or `experience_level`: for every payload whose
`user_id` references an existing user, creation succeeds with 201 and
stores the given optional strings verbatim — whatever they are,
including values outside both enum vocabularies or absent — and the
operation's only failure is 400 "User not found" for a non-existent
`user_id` (store unchanged). -/
theorem C10_profile_no_enum_check (db : Store) (p : UserProfileCreate) :
    ((∀ u ∈ db.users, u.id ≠ p.user_id) →
      create_user_profile db p = (db, .err 400 "User not found" [])) ∧
    ((∃ u ∈ db.users, u.id = p.user_id) →
      create_user_profile db p =
        ({ db with user_profiles := db.user_profiles ++ [insertedProfile db p] },
          .ok 201 (insertedProfile db p)) ∧
      (insertedProfile db p).user_id = p.user_id ∧
      (insertedProfile db p).learning_style = p.learning_style ∧
      (insertedProfile db p).experience_level = p.experience_level) := by
  constructor
  · intro hn
    have hf : db.users.find? (fun u => u.id == p.user_id) = none :=
      List.find?_eq_none.mpr (fun u hu => by simp [hn u hu])
    simp [create_user_profile, hf]
  · rintro ⟨u, hu, he⟩
    cases hf : db.users.find? (fun u => u.id == p.user_id) with
    | none => exact absurd (by simp [he]) (List.find?_eq_none.mp hf u hu)
    | some v => exact ⟨by simp [create_user_profile, hf], rfl, rfl, rfl⟩

/-- C10 witness: with one user (id 1), a profile for user 42 fails with
400 "User not found", while a profile for user 1 carrying the
out-of-vocabulary strings "telepathic" and "galactic" is created with
exactly those strings stored. -/
theorem C10_profile_no_enum_check_witness :
    (create_user_profile ⟨[⟨1, "a@b", "h", true⟩], [], [], [], []⟩
        ⟨some "Ada", none, some "telepathic", some "galactic", none, 42⟩ =
      (⟨[⟨1, "a@b", "h", true⟩], [], [], [], []⟩, .err 400 "User not found" [])) ∧
    (create_user_profile ⟨[⟨1, "a@b", "h", true⟩], [], [], [], []⟩
        ⟨some "Ada", none, some "telepathic", some "galactic", none, 1⟩ =
      ({ (⟨[⟨1, "a@b", "h", true⟩], [], [], [], []⟩ : Store) with
          user_profiles := [] ++
            [insertedProfile ⟨[⟨1, "a@b", "h", true⟩], [], [], [], []⟩
              ⟨some "Ada", none, some "telepathic", some "galactic", none, 1⟩] },
        .ok 201 (insertedProfile ⟨[⟨1, "a@b", "h", true⟩], [], [], [], []⟩
          ⟨some "Ada", none, some "telepathic", some "galactic", none, 1⟩)) ∧
      (insertedProfile ⟨[⟨1, "a@b", "h", true⟩], [], [], [], []⟩
        ⟨some "Ada", none, some "telepathic", some "galactic", none, 1⟩).user_id = 1 ∧
      (insertedProfile ⟨[⟨1, "a@b", "h", true⟩], [], [], [], []⟩
        ⟨some "Ada", none, some "telepathic", some "galactic", none, 1⟩).learning_style =
        some "telepathic" ∧
      (insertedProfile ⟨[⟨1, "a@b", "h", true⟩], [], [], [], []⟩
        ⟨some "Ada", none, some "telepathic", some "galactic", none, 1⟩).experience_level =
        some "galactic") :=
  ⟨(C10_profile_no_enum_check ⟨[⟨1, "a@b", "h", true⟩], [], [], [], []⟩
      ⟨some "Ada", none, some "telepathic", some "galactic", none, 42⟩).1 (by decide),
    (C10_profile_no_enum_check ⟨[⟨1, "a@b", "h", true⟩], [], [], [], []⟩
      ⟨some "Ada", none, some "telepathic", some "galactic", none, 1⟩).2
      ⟨⟨1, "a@b", "h", true⟩, by decide, rfl⟩⟩

/-- Creating a batch of courses appends their rows in request order:
the stored titles are the previous titles followed by the requests'
titles. -/
theorem create_courses_titles (reqs : List CourseCreate) :
    ∀ db : Store, (create_courses db reqs).courses.map (fun c => c.title) =
      db.courses.map (fun c => c.title) ++ reqs.map (fun r => r.title) := by
  induction reqs with
  | nil => intro db; simp [create_courses]
  | cons r t ih =>
    intro db
    show (create_courses (create_course db r).1 t).courses.map (fun c => c.title) = _
    rw [ih]
    simp [create_course, insertedCourse]

/-- C5: listing courses with an empty courses table returns the empty
sequence; after creating N ≤ 100 courses from the empty store, listing
with the default skip = 0 and limit = 100 returns all N stored rows,
whose titles are the requests' titles in insertion order; and for every
skip and limit, the listing is the insertion-ordered suffix starting at
position skip, truncated to limit elements. -/
theorem C5_get_courses_pagination (db : Store) (reqs : List CourseCreate)
    (skip limit : Nat) :
    (db.courses = [] → get_courses db skip limit = []) ∧
    (reqs.length ≤ 100 →
      get_courses (create_courses Store.empty reqs) 0 100 =
        (create_courses Store.empty reqs).courses ∧
      (create_courses Store.empty reqs).courses.map (fun c => c.title) =
        reqs.map (fun r => r.title)) ∧
    get_courses db skip limit = (db.courses.drop skip).take limit := by
  refine ⟨?_, ?_, rfl⟩
  · intro h
    rw [get_courses, h]
    simp
  · intro hlen
    have htitles := create_courses_titles reqs Store.empty
    simp only [Store.empty] at htitles
    rw [List.map_nil, List.nil_append] at htitles
    have hl : (create_courses Store.empty reqs).courses.length = reqs.length := by
      have := congrArg List.length htitles
      simpa using this
    refine ⟨?_, htitles⟩
    rw [get_courses, List.drop_zero]
    exact List.take_of_length_le (by rw [hl]; exact hlen)

/-- C5 witness: listing the empty store is empty; after creating two
courses, the default listing returns both stored rows, titled "T1" and
"T2" in insertion order. -/
theorem C5_get_courses_pagination_witness :
    get_courses Store.empty 3 7 = [] ∧
    get_courses (create_courses Store.empty
        [⟨"T1", "D1", "Beginner", none⟩, ⟨"T2", "D2", "Advanced", none⟩]) 0 100 =
      (create_courses Store.empty
        [⟨"T1", "D1", "Beginner", none⟩, ⟨"T2", "D2", "Advanced", none⟩]).courses ∧
    (create_courses Store.empty
        [⟨"T1", "D1", "Beginner", none⟩, ⟨"T2", "D2", "Advanced", none⟩]).courses.map
      (fun c => c.title) = ["T1", "T2"] := by
  refine ⟨(C5_get_courses_pagination Store.empty [] 3 7).1 rfl, ?_, ?_⟩
  · exact ((C5_get_courses_pagination Store.empty
      [⟨"T1", "D1", "Beginner", none⟩, ⟨"T2", "D2", "Advanced", none⟩] 0 100).2.1
      (by decide)).1
  · exact (((C5_get_courses_pagination Store.empty
      [⟨"T1", "D1", "Beginner", none⟩, ⟨"T2", "D2", "Advanced", none⟩] 0 100).2.1
      (by decide)).2).trans (by decide)

end AITutor
